import Mathlib

/-!
Verification of the financial-analysis report generator (손PB 통합 정리 코드).

The Python source is shallowly embedded below: Python ints/floats are
modelled as `Int`/`ℚ` (all arithmetic in the program is exact decimal
arithmetic on small values), Python dicts appear as insertion-ordered
association lists, and code paths that can raise (`ZeroDivisionError`,
`int()` parse failures caught by `try/except`) are modelled with `Option`.
-/

/-- PyVal models the dynamically-typed argument of `_extract_amount`:
an int, a float, a string, or any other Python value. -/
inductive PyVal where
  | int : Int → PyVal
  | float : ℚ → PyVal
  | str : String → PyVal
  | other : PyVal
deriving DecidableEq

/-- PyNum models the dynamically-typed numeric result of `_extract_amount`
(the function returns an int or, for float input, that float). -/
inductive PyNum where
  | int : Int → PyNum
  | float : ℚ → PyNum
deriving DecidableEq

/-- Value of an ASCII decimal digit character, `none` for non-digits. -/
def digitVal (c : Char) : Option Nat :=
  if '0' ≤ c ∧ c ≤ '9' then some (c.toNat - 48) else none

/-- Continuation of Python `int(...)` string parsing after at least one
digit has been read: further digits, with single underscores allowed
between digits. -/
def parseRest : List Char → Nat → Option Nat
  | [], acc => some acc
  | c :: rest, acc =>
    if c = '_' then
      match rest with
      | [] => none
      | c2 :: rest2 =>
        match digitVal c2 with
        | some d => parseRest rest2 (10 * acc + d)
        | none => none
    else
      match digitVal c with
      | some d => parseRest rest (10 * acc + d)
      | none => none

/-- Python `int(...)` digit-part parsing: at least one digit required. -/
def parseStart : List Char → Option Nat
  | [] => none
  | c :: rest =>
    match digitVal c with
    | some d => parseRest rest d
    | none => none

/-- Python `int(s)` on an already-stripped string: optional sign, then a
non-empty digit sequence. `none` models the `ValueError` caught by the
source's bare `except`. -/
def pyParseInt : List Char → Option Int
  | [] => none
  | c :: rest =>
    if c = '+' then (parseStart rest).map (fun n => (n : Int))
    else if c = '-' then (parseStart rest).map (fun n => -(n : Int))
    else (parseStart (c :: rest)).map (fun n => (n : Int))

/-- Strip leading and trailing whitespace (Python `str.strip()`). -/
def stripWS (l : List Char) : List Char :=
  ((l.dropWhile Char.isWhitespace).reverse.dropWhile Char.isWhitespace).reverse

/-- The cleaning pipeline of `_extract_amount`:
`amount_str.replace(',', '').replace('원', '').strip()`. -/
def cleanChars (l : List Char) : List Char :=
  stripWS ((l.filter (fun c => c ≠ ',')).filter (fun c => c ≠ '원'))

/-- `_extract_amount`: numeric inputs are returned unchanged; strings are
cleaned and parsed with `int(...)`, parse failure giving 0; any other
type gives 0. -/
def extract_amount : PyVal → PyNum
  | .int n => .int n
  | .float q => .float q
  | .str s =>
    match pyParseInt (cleanChars s.data) with
    | some n => .int n
    | none => .int 0
  | .other => .int 0

/-- Numeric value of a digit list (most significant first), the value
Python `int` assigns to a plain digit string. -/
def digitsToNat (l : List Char) : Nat :=
  l.foldl (fun acc c => 10 * acc + ((digitVal c).getD 0)) 0

/-- Metric Calculator: `savings_rate = ((avg_investment + avg_surplus) /
avg_income * 100) if avg_income > 0 else 0`. -/
def savings_rate (investment surplus income : ℚ) : ℚ :=
  if income > 0 then (investment + surplus) / income * 100 else 0

/-- Metric Calculator: `expense_ratio = (avg_expense / avg_income * 100)
if avg_income > 0 else 0`. -/
def expense_pct (expense income : ℚ) : ℚ :=
  if income > 0 then expense / income * 100 else 0

/-- Metric Calculator: `debt_ratio = (total_liability / total_assets * 100)
if total_assets > 0 else 0`. -/
def debt_pct (liability assets : ℚ) : ℚ :=
  if assets > 0 then liability / assets * 100 else 0

/-- Metric Calculator: `emergency_months = (liquid_assets / avg_expense)
if avg_expense > 0 else 0`. -/
def emergency_months (liquid expense : ℚ) : ℚ :=
  if expense > 0 then liquid / expense else 0

/-- `_evaluate_expense_ratio`: five-tier rating of the expense ratio. -/
def evaluate_expense_pct (r : ℚ) : String :=
  if r ≤ 70 then "매우 우수"
  else if r ≤ 80 then "우수"
  else if r ≤ 90 then "양호"
  else if r ≤ 100 then "보완 필요"
  else "미흡"

/-- `_evaluate_savings_rate`: five-tier rating of the savings rate. -/
def evaluate_savings_rate (r : ℚ) : String :=
  if r ≥ 30 then "매우 우수"
  else if r ≥ 20 then "우수"
  else if r ≥ 10 then "양호"
  else if r ≥ 5 then "보완 필요"
  else "미흡"

/-- `_evaluate_emergency_fund`: four-tier rating of emergency-fund months. -/
def evaluate_emergency_fund (m : ℚ) : String :=
  if m ≥ 6 then "매우 우수"
  else if m ≥ 3 then "우수"
  else if m ≥ 1 then "양호"
  else "보완 필요"

/-- Rank of a tier label, poor = 0 up to very-good = 4 (used to state
monotonicity of the rating engine). -/
def tier_rank : String → Nat
  | "미흡" => 0
  | "보완 필요" => 1
  | "양호" => 2
  | "우수" => 3
  | "매우 우수" => 4
  | _ => 0

/-- Python substring prefix test: does the first list begin the second? -/
def startsB : List Char → List Char → Bool
  | [], _ => true
  | _ :: _, [] => false
  | a :: as, b :: bs => a == b && startsB as bs

/-- Python `needle in hay` on strings: substring containment. -/
def hasSub (needle : List Char) : List Char → Bool
  | [] => startsB needle []
  | b :: bs => startsB needle (b :: bs) || hasSub needle bs

/-- `needle in hay` lifted to `String`, as used by `_classify_asset` and
`_estimate_return`. -/
def inStr (needle hay : String) : Bool := hasSub needle.data hay.data

/-- `_classify_asset`: ordered keyword rules, first match wins. -/
def classify_asset (name : String) : String :=
  if inStr "채권" name then "안정자산"
  else if inStr "KOSPI" name || inStr "KOSDAQ" name then "국내주식"
  else if inStr "S&P" name || inStr "나스닥" name || inStr "니케이" name then "해외주식"
  else if inStr "GLD" name then "원자재"
  else "기타"

/-- `_estimate_return`: ordered keyword rules, first match wins (note:
its international-equity rule tests only S&P and 나스닥). -/
def estimate_return (name : String) : String :=
  if inStr "채권" name then "3-5%"
  else if inStr "KOSPI" name || inStr "KOSDAQ" name then "6-8%"
  else if inStr "S&P" name || inStr "나스닥" name then "7-9%"
  else if inStr "GLD" name then "4-6%"
  else "5-7%"

/-- The expected-return range the spec table assigns to each
classification label. -/
def returnOfKind : String → String
  | "안정자산" => "3-5%"
  | "국내주식" => "6-8%"
  | "해외주식" => "7-9%"
  | "원자재" => "4-6%"
  | _ => "5-7%"

/-- `_identify_strengths`. The source evaluates `expense / income` with no
zero guard, so an average income of 0 raises `ZeroDivisionError`,
modelled as `none`; otherwise the triggered phrases are joined. -/
def identify_strengths (income expense savings_r debt_p : ℚ) : Option String :=
  if income = 0 then none
  else
    let strengths :=
      (if income > 4000000 then ["안정적인 소득 수준"] else []) ++
      (if savings_r ≥ 20 then ["높은 저축률"] else []) ++
      (if debt_p ≤ 20 then ["낮은 부채비율"] else []) ++
      (if expense / income ≤ 0.8 then ["건전한 수지관리"] else [])
    some (if strengths = [] then "특별한 강점이 식별되지 않음"
          else String.intercalate ", " strengths)

/-- `_identify_improvements`: no division, total. -/
def identify_improvements (expense_r savings_r emergency_m debt_r : ℚ) : String :=
  let improvements :=
    (if expense_r > 80 then ["지출 비율 감소 필요"] else []) ++
    (if savings_r < 20 then ["저축률 향상 필요"] else []) ++
    (if emergency_m < 3 then ["비상자금 확충 필요"] else []) ++
    (if debt_r > 40 then ["부채 관리 필요"] else [])
  if improvements = [] then "현재 상태 유지 권장"
  else String.intercalate ", " improvements

/-- `_recommend_improvements`. The third rule evaluates
`expense / income > 0.8` with no zero guard, so income 0 raises
`ZeroDivisionError`, modelled as `none` (amount formatting inside the
phrases is abstracted away). -/
def recommend_improvements (income expense savings_r emergency_m : ℚ) : Option String :=
  if income = 0 then none
  else
    let recs :=
      (if savings_r < 20 then ["저축률을 20%로 향상"] else []) ++
      (if emergency_m < 3 then ["비상자금 확충"] else []) ++
      (if expense / income > 0.8 then ["지출 관리"] else [])
    some (if recs = [] then "현재 상태 유지"
          else String.intercalate "; " recs)

/-- `scores` list built by `_overall_assessment`: one entry 1 per passed
check. -/
def overall_scores (ep sr em dp : ℚ) : List ℚ :=
  (if ep ≤ 80 then [(1 : ℚ)] else []) ++
  (if sr ≥ 20 then [(1 : ℚ)] else []) ++
  (if em ≥ 3 then [(1 : ℚ)] else []) ++
  (if dp ≤ 40 then [(1 : ℚ)] else [])

/-- `_overall_assessment`: averages the scores list over 4 and maps the
average through the tier cutoffs. -/
def overall_assessment (ep sr em dp : ℚ) : String :=
  let avg := (overall_scores ep sr em dp).sum / 4
  if avg ≥ 0.8 then "매우 우수"
  else if avg ≥ 0.6 then "우수"
  else if avg ≥ 0.4 then "양호"
  else "보완 필요"

/-- Number of passed checks among the four binary pass/fail checks of the
spec's aggregate overall-score. -/
def pass_count (ep sr em dp : ℚ) : Nat :=
  (if ep ≤ 80 then 1 else 0) + (if sr ≥ 20 then 1 else 0) +
  (if em ≥ 3 then 1 else 0) + (if dp ≤ 40 then 1 else 0)

/-- The spec's wording of the aggregate assessment: the fraction of the
four passed checks (each pass counting 1/4) mapped through the cutoffs
{0.8, 0.6, 0.4}. -/
def overall_assessment_from_spec (ep sr em dp : ℚ) : String :=
  let frac : ℚ := (pass_count ep sr em dp : ℚ) / 4
  if frac ≥ 0.8 then "매우 우수"
  else if frac ≥ 0.6 then "우수"
  else if frac ≥ 0.4 then "양호"
  else "보완 필요"

/-- A month's entry of the monthly cash-flow history: the month's total
expense (`총합`) and the category detail mapping (`상세내역`), the dict
modelled as an insertion-ordered association list. -/
structure MonthData where
  total : Int
  details : List (String × Int)
deriving DecidableEq

/-- `list(monthly_cash_flow.keys())[-3:] if len(...) >= 3 else
list(monthly_cash_flow.keys())`: the last three entries in insertion
order, or all of them when fewer than three exist. -/
def recent_months {α : Type} (m : List α) : List α :=
  if m.length ≥ 3 then m.drop (m.length - 3) else m

/-- Stable insertion into a list sorted by descending second component:
the inserted element goes before the first element whose amount is not
strictly larger. -/
def insertD (x : String × Int) : List (String × Int) → List (String × Int)
  | [] => [x]
  | y :: ys => if x.2 < y.2 then y :: insertD x ys else x :: y :: ys

/-- Python `sorted(details.items(), key=lambda x: x[1], reverse=True)`:
a stable sort by descending amount (Python's sort is stable and
`reverse=True` keeps equal elements in original order). -/
def sortD : List (String × Int) → List (String × Int)
  | [] => []
  | x :: xs => insertD x (sortD xs)

/-- `sorted(...)[:5]`: the top five expense categories of a month. -/
def top5 (details : List (String × Int)) : List (String × Int) :=
  (sortD details).take 5

/-- The month-by-month expense breakdown of section 5.1 of the household
report: for each of the most recent three months, the month key, the
month's total expense, and its top-5 category list. -/
def expense_breakdown (monthly : List (String × MonthData)) :
    List (String × Int × List (String × Int)) :=
  (recent_months monthly).map (fun p => (p.1, p.2.total, top5 p.2.details))

/-- One row of the asset-allocation table: asset-class name, first-year
weight (the rendered percentage string is abstracted to the exact
weight), classification, and expected-return range. -/
structure AllocationRow where
  asset : String
  weight : ℚ
  feature : String
  expected : String
deriving DecidableEq

/-- `_create_asset_allocation_table`: empty inputs give an empty table;
otherwise each asset is paired with its first-year weight (0 when its
index lies beyond the weight vector) and kept only when that weight
exceeds 0.01. -/
def create_asset_allocation_table (asset_names : List String)
    (yearly_weights : List (List ℚ)) : List AllocationRow :=
  match yearly_weights with
  | [] => []
  | fw :: _ =>
    if asset_names = [] then []
    else
      asset_names.enum.filterMap (fun p =>
        if fw.getD p.1 0 > 0.01 then
          some ⟨p.2, fw.getD p.1 0, classify_asset p.2, estimate_return p.2⟩
        else none)

/-- A financial goal as consumed by `generate_financial_goals_summary`
(already-parsed form of the goal dict). -/
structure Goal where
  name : String
  years : Int
  target : Int
  priority : Int
  necessity : String
deriving DecidableEq

/-- Result of `generate_financial_goals_summary`: either the fixed
no-goals message alone, or a full report carrying the goal details/table
(the goal list itself) and the asset-allocation table. -/
inductive GoalsSummaryDoc where
  | noGoals : String → GoalsSummaryDoc
  | report : List Goal → List AllocationRow → GoalsSummaryDoc
deriving DecidableEq

/-- `generate_financial_goals_summary`: `if not self.goal_list: return
"재무목표가 설정되지 않았습니다."`, else the full goals/allocation report. -/
def generate_financial_goals_summary (goals : List Goal)
    (asset_names : List String) (yearly_weights : List (List ℚ)) :
    GoalsSummaryDoc :=
  match goals with
  | [] => .noGoals "재무목표가 설정되지 않았습니다."
  | _ => .report goals (create_asset_allocation_table asset_names yearly_weights)

/-- The fault-relevant core of `generate_household_analysis_report`:
computes the four metrics and then the two narrative fragments that
divide by income; `none` models the `ZeroDivisionError` escaping the
core (it is only caught by `main()`'s top-level `except`). -/
def household_narrative (income expense investment surplus assets liability liquid : ℚ) :
    Option (String × String) :=
  let sr := savings_rate investment surplus income
  let dp := debt_pct liability assets
  let em := emergency_months liquid expense
  match identify_strengths income expense sr dp,
        recommend_improvements income expense sr em with
  | some s, some r => some (s, r)
  | _, _ => none

/-- Claim C1: the claim states that report generation completes without a
division fault even when average income is 0. The code violates this:
`_identify_strengths` and `_recommend_improvements` evaluate
`expense / income` unguarded, so income 0 raises `ZeroDivisionError`
(modelled `none`); with nonzero income the narrative is produced. -/
theorem C1_div_fault :
    identify_strengths 0 0 0 0 = none ∧
    recommend_improvements 0 0 0 0 = none ∧
    household_narrative 0 0 0 0 37189716 0 1550152 = none ∧
    (identify_strengths 1 0 0 0).isSome = true ∧
    (recommend_improvements 1 0 0 0).isSome = true := by
  refine ⟨rfl, rfl, ?_, rfl, rfl⟩
  simp [household_narrative, identify_strengths]

/-- Claim C4: the four financial-health metrics equal the stated
quotient formulas when their denominator is positive and equal 0 when
the denominator is ≤ 0. -/
theorem C4_metric_formulas
    (income expense investment surplus assets liability liquid : ℚ) :
    (0 < income → expense_pct expense income = expense / income * 100 ∧
      savings_rate investment surplus income = (investment + surplus) / income * 100) ∧
    (income ≤ 0 → expense_pct expense income = 0 ∧
      savings_rate investment surplus income = 0) ∧
    (0 < assets → debt_pct liability assets = liability / assets * 100) ∧
    (assets ≤ 0 → debt_pct liability assets = 0) ∧
    (0 < expense → emergency_months liquid expense = liquid / expense) ∧
    (expense ≤ 0 → emergency_months liquid expense = 0) := by
  unfold expense_pct savings_rate debt_pct emergency_months
  refine ⟨fun h => ?_, fun h => ?_, fun h => ?_, fun h => ?_, fun h => ?_, fun h => ?_⟩ <;>
    simp [h]

/-- Witness for C4 at income 2, assets 4, expense 5 (and the degenerate
zero denominators). -/
theorem C4_metric_formulas_witness :
    (expense_pct 1 2 = 1 / 2 * 100 ∧ savings_rate 1 1 2 = (1 + 1) / 2 * 100) ∧
    (expense_pct 1 0 = 0 ∧ savings_rate 1 1 0 = 0) ∧
    debt_pct 3 4 = 3 / 4 * 100 ∧ debt_pct 3 0 = 0 ∧
    emergency_months 10 5 = 10 / 5 ∧ emergency_months 10 0 = 0 :=
  ⟨(C4_metric_formulas 2 1 1 1 1 1 1).1 (by norm_num),
   (C4_metric_formulas 0 1 1 1 1 1 1).2.1 (by norm_num),
   (C4_metric_formulas 1 1 1 1 4 3 1).2.2.1 (by norm_num),
   (C4_metric_formulas 1 1 1 1 0 3 1).2.2.2.1 (by norm_num),
   (C4_metric_formulas 1 5 1 1 1 1 10).2.2.2.2.1 (by norm_num),
   (C4_metric_formulas 1 0 1 1 1 1 10).2.2.2.2.2 (by norm_num)⟩

/-- Claim C10: an empty goal list short-circuits to exactly the fixed
no-goals message, and the no-goals message arises only from an empty
goal list (a nonempty list always yields the full report document). -/
theorem C10_empty_goals (goals : List Goal) (names : List String)
    (yw : List (List ℚ)) :
    (goals = [] →
      generate_financial_goals_summary goals names yw =
        .noGoals "재무목표가 설정되지 않았습니다.") ∧
    (∀ msg, generate_financial_goals_summary goals names yw = .noGoals msg →
      goals = [] ∧ msg = "재무목표가 설정되지 않았습니다.") := by
  cases goals <;> simp [generate_financial_goals_summary]

/-- Witness for C10: the empty goal list yields the fixed message. -/
theorem C10_empty_goals_witness :
    generate_financial_goals_summary [] ["KOSPI"] [[1]] =
      .noGoals "재무목표가 설정되지 않았습니다." :=
  (C10_empty_goals [] ["KOSPI"] [[1]]).1 rfl

/-- Claim C5: the three per-metric rating functions realize exactly the
spec's tier tables, with every boundary inclusive (a value exactly at a
cutoff gets the better tier). -/
theorem C5_tier_tables (x : ℚ) :
    (evaluate_expense_pct x = "매우 우수" ↔ x ≤ 70) ∧
    (evaluate_expense_pct x = "우수" ↔ 70 < x ∧ x ≤ 80) ∧
    (evaluate_expense_pct x = "양호" ↔ 80 < x ∧ x ≤ 90) ∧
    (evaluate_expense_pct x = "보완 필요" ↔ 90 < x ∧ x ≤ 100) ∧
    (evaluate_expense_pct x = "미흡" ↔ 100 < x) ∧
    (evaluate_savings_rate x = "매우 우수" ↔ 30 ≤ x) ∧
    (evaluate_savings_rate x = "우수" ↔ 20 ≤ x ∧ x < 30) ∧
    (evaluate_savings_rate x = "양호" ↔ 10 ≤ x ∧ x < 20) ∧
    (evaluate_savings_rate x = "보완 필요" ↔ 5 ≤ x ∧ x < 10) ∧
    (evaluate_savings_rate x = "미흡" ↔ x < 5) ∧
    (evaluate_emergency_fund x = "매우 우수" ↔ 6 ≤ x) ∧
    (evaluate_emergency_fund x = "우수" ↔ 3 ≤ x ∧ x < 6) ∧
    (evaluate_emergency_fund x = "양호" ↔ 1 ≤ x ∧ x < 3) ∧
    (evaluate_emergency_fund x = "보완 필요" ↔ x < 1) := by
  unfold evaluate_expense_pct evaluate_savings_rate evaluate_emergency_fund
  refine ⟨?_, ?_, ?_, ?_, ?_, ?_, ?_, ?_, ?_, ?_, ?_, ?_, ?_, ?_⟩ <;>
    split_ifs <;> simp <;>
      first
      | linarith
      | (intro hh; linarith)
      | (constructor <;> linarith)

/-- Claim C6: the rating tiers are monotonic. For x ≤ y the savings-rate
tier of y ranks at least as high as that of x, and the expense-ratio
tier of y ranks no higher than that of x. -/
theorem C6_tier_monotone (x y : ℚ) (h : x ≤ y) :
    tier_rank (evaluate_savings_rate x) ≤ tier_rank (evaluate_savings_rate y) ∧
    tier_rank (evaluate_expense_pct y) ≤ tier_rank (evaluate_expense_pct x) := by
  unfold evaluate_savings_rate evaluate_expense_pct
  constructor <;> split_ifs <;>
    first
    | decide
    | (exfalso; linarith)

/-- Witness for C6 at x = 1, y = 2. -/
theorem C6_tier_monotone_witness :
    tier_rank (evaluate_savings_rate 1) ≤ tier_rank (evaluate_savings_rate 2) ∧
    tier_rank (evaluate_expense_pct 2) ≤ tier_rank (evaluate_expense_pct 1) :=
  C6_tier_monotone 1 2 (by norm_num)

/-- Claim C8: the overall assessment of `_overall_assessment` equals the
spec's description — the fraction of passed checks among the four
binary checks, each pass counting 1/4, mapped through the tier cutoffs
{0.8, 0.6, 0.4} — and that mapping collapses to the pass count:
4 passes very-good, 3 good, 2 fair, otherwise needs-improvement. -/
theorem C8_overall_assessment (ep sr em dp : ℚ) :
    overall_assessment ep sr em dp = overall_assessment_from_spec ep sr em dp ∧
    overall_assessment ep sr em dp =
      (if pass_count ep sr em dp = 4 then "매우 우수"
       else if pass_count ep sr em dp = 3 then "우수"
       else if pass_count ep sr em dp = 2 then "양호"
       else "보완 필요") := by
  unfold overall_assessment overall_assessment_from_spec overall_scores pass_count
  rcases le_or_lt ep 80 with h1 | h1 <;>
    rcases le_or_lt 20 sr with h2 | h2 <;>
      rcases le_or_lt 3 em with h3 | h3 <;>
        rcases le_or_lt dp 40 with h4 | h4 <;>
          simp [h1, h2, h3, h4, not_le.mpr, le_of_lt] <;>
            norm_num

/-- Counterexample to claim C3: the asset names "니케이 225" and "나스닥 100"
receive the same classification (international equity, 해외주식), yet
their expected-return strings differ, because `_estimate_return` omits
the 니케이 keyword that `_classify_asset` tests. So the return-range
string is not uniquely determined by the classification. -/
theorem C3_not_unique_by_kind :
    classify_asset "니케이 225" = "해외주식" ∧
    classify_asset "나스닥 100" = "해외주식" ∧
    estimate_return "니케이 225" = "5-7%" ∧
    estimate_return "나스닥 100" = "7-9%" ∧
    estimate_return "니케이 225" ≠ estimate_return "나스닥 100" := by
  refine ⟨rfl, rfl, rfl, rfl, ?_⟩
  decide

/-- Claim C3 as amended: both rule tables are prioritized ordered keyword
lists evaluated top-down, and for every asset name except those whose
only matching international keyword is 니케이 (absent from the return
table), the expected-return string is determined by the classification
via the spec's table. -/
theorem C3_return_by_kind (name : String)
    (h : inStr "니케이" name = false ∨ inStr "채권" name = true ∨
      inStr "KOSPI" name = true ∨ inStr "KOSDAQ" name = true ∨
      inStr "S&P" name = true ∨ inStr "나스닥" name = true) :
    estimate_return name = returnOfKind (classify_asset name) := by
  cases h1 : inStr "채권" name <;> cases h2 : inStr "KOSPI" name <;>
    cases h3 : inStr "KOSDAQ" name <;> cases h4 : inStr "S&P" name <;>
      cases h5 : inStr "나스닥" name <;> cases h6 : inStr "니케이" name <;>
        cases h7 : inStr "GLD" name <;>
          simp_all [classify_asset, estimate_return] <;> rfl

/-- Witness for C3: a name matching only the KOSPI keyword classifies as
domestic equity and its return string follows the spec table. -/
theorem C3_return_by_kind_witness :
    estimate_return "KOSPI" = returnOfKind (classify_asset "KOSPI") ∧
    classify_asset "KOSPI" = "국내주식" ∧
    returnOfKind "국내주식" = "6-8%" :=
  ⟨C3_return_by_kind "KOSPI" (by decide), rfl, rfl⟩

/-- A character with a digit value lies between the digit characters. -/
lemma digit_bounds (c : Char) (h : (digitVal c).isSome) : '0' ≤ c ∧ c ≤ '9' := by
  by_contra hb
  simp [digitVal, hb] at h

/-- A digit character is not a comma, not the currency character and not
whitespace, so the cleaning pipeline leaves it alone. -/
lemma digit_clean_props (c : Char) (h : (digitVal c).isSome) :
    (c ≠ ',' ∧ c ≠ '원') ∧ c.isWhitespace = false := by
  obtain ⟨h1, h2⟩ := digit_bounds c h
  refine ⟨⟨?_, ?_⟩, ?_⟩
  · rintro rfl; exact absurd h1 (by decide)
  · rintro rfl; exact absurd h2 (by decide)
  · simp only [Char.isWhitespace, Bool.or_eq_false_iff, decide_eq_false_iff_not]
    refine ⟨⟨⟨?_, ?_⟩, ?_⟩, ?_⟩ <;> rintro rfl <;> exact absurd h1 (by decide)

/-- dropWhile is the identity when no element satisfies the predicate. -/
lemma dropWhile_of_none (p : Char → Bool) (l : List Char)
    (h : ∀ c ∈ l, p c = false) : List.dropWhile p l = l := by
  cases l with
  | nil => rfl
  | cons c cs => simp [List.dropWhile, h c (by simp)]

/-- Stripping whitespace from a whitespace-free list is the identity. -/
lemma stripWS_of_no_ws (l : List Char) (h : ∀ c ∈ l, c.isWhitespace = false) :
    stripWS l = l := by
  unfold stripWS
  rw [dropWhile_of_none _ _ h, dropWhile_of_none, List.reverse_reverse]
  intro c hc
  exact h c (List.mem_reverse.mp hc)

/-- Cleaning a digit string with the currency suffix yields the digits. -/
lemma cleanChars_digits (l : List Char) (h : ∀ c ∈ l, (digitVal c).isSome) :
    cleanChars (l ++ ['원']) = l := by
  have hcomma : (l ++ ['원']).filter (fun c => c ≠ ',') = l ++ ['원'] := by
    rw [List.filter_eq_self]
    intro a ha
    rcases List.mem_append.mp ha with ha | ha
    · simpa using (digit_clean_props a (h a ha)).1.1
    · simp at ha
      subst ha
      decide
  have hwon : (l ++ ['원']).filter (fun c => c ≠ '원') = l := by
    rw [List.filter_append,
      List.filter_eq_self.mpr (fun a ha => by
        simpa using (digit_clean_props a (h a ha)).1.2)]
    simp
  unfold cleanChars
  rw [hcomma, hwon]
  exact stripWS_of_no_ws l (fun c hc => (digit_clean_props c (h c hc)).2)

/-- parseRest on an all-digit tail accumulates the decimal value. -/
lemma parseRest_digits (l : List Char) (acc : Nat)
    (h : ∀ c ∈ l, (digitVal c).isSome) :
    parseRest l acc =
      some (l.foldl (fun a c => 10 * a + ((digitVal c).getD 0)) acc) := by
  induction l generalizing acc with
  | nil => rfl
  | cons c cs ih =>
    have hc : (digitVal c).isSome := h c (by simp)
    obtain ⟨d, hd⟩ := Option.isSome_iff_exists.mp hc
    have hne : c ≠ '_' := by
      rintro rfl
      exact absurd hc (by decide)
    rw [parseRest.eq_def]
    simp only [if_neg hne, hd, List.foldl_cons, Option.getD_some]
    exact ih (10 * acc + d) (fun a ha => h a (by simp [ha]))

/-- parseStart on a nonempty all-digit list returns its decimal value. -/
lemma parseStart_digits (l : List Char) (hne : l ≠ [])
    (h : ∀ c ∈ l, (digitVal c).isSome) : parseStart l = some (digitsToNat l) := by
  cases l with
  | nil => exact absurd rfl hne
  | cons c cs =>
    have hc : (digitVal c).isSome := h c (by simp)
    obtain ⟨d, hd⟩ := Option.isSome_iff_exists.mp hc
    rw [parseStart.eq_def]
    simp only [hd]
    rw [parseRest_digits cs d (fun a ha => h a (by simp [ha]))]
    simp [digitsToNat, hd]

/-- pyParseInt on a nonempty all-digit list returns its decimal value. -/
lemma pyParseInt_digits (l : List Char) (hne : l ≠ [])
    (h : ∀ c ∈ l, (digitVal c).isSome) :
    pyParseInt l = some ((digitsToNat l : Nat) : Int) := by
  cases l with
  | nil => exact absurd rfl hne
  | cons c cs =>
    have hc : (digitVal c).isSome := h c (by simp)
    have hplus : c ≠ '+' := by
      rintro rfl
      exact absurd hc (by decide)
    have hminus : c ≠ '-' := by
      rintro rfl
      exact absurd hc (by decide)
    rw [pyParseInt.eq_def]
    simp only [if_neg hplus, if_neg hminus]
    rw [parseStart_digits (c :: cs) (by simp) h]
    rfl

/-- Counterexample to claim C2: `_extract_amount` returns already-numeric
inputs unchanged, so the integer input -1 yields the negative integer
-1 and the float input 1/2 yields the non-integer float 1/2 — not a
non-negative integer as the claim states for every input value. -/
theorem C2_negative_passthrough :
    extract_amount (PyVal.int (-1)) = PyNum.int (-1) ∧ (-1 : Int) < 0 ∧
    extract_amount (PyVal.float (1 / 2)) = PyNum.float (1 / 2) :=
  ⟨rfl, by decide, rfl⟩

/-- Claim C2 as amended: `_extract_amount` never raises and is total;
already-numeric inputs are returned unchanged (hence a non-negative
integer exactly when the input is one); a string of decimal digits with
the currency suffix parses to that (non-negative) integer, and thousands
separators (commas) never change the result; unparseable strings and
values of any other type yield 0. -/
theorem C2_extract_amount_spec :
    (∀ n : Int, extract_amount (.int n) = .int n) ∧
    (∀ q : ℚ, extract_amount (.float q) = .float q) ∧
    (extract_amount .other = .int 0) ∧
    (∀ s : String, pyParseInt (cleanChars s.data) = none →
      extract_amount (.str s) = .int 0) ∧
    (∀ s : String, extract_amount (.str s) =
      extract_amount (.str (String.mk (s.data.filter (fun c => c ≠ ','))))) ∧
    (∀ l : List Char, l ≠ [] → (∀ c ∈ l, (digitVal c).isSome) →
      extract_amount (.str (String.mk (l ++ ['원']))) =
        .int ((digitsToNat l : Nat) : Int)) := by
  refine ⟨fun n => rfl, fun q => rfl, rfl, fun s hs => ?_, fun s => ?_, fun l hne h => ?_⟩
  · simp [extract_amount, hs]
  · show (match pyParseInt (cleanChars s.data) with
      | some n => PyNum.int n
      | none => PyNum.int 0) =
      (match pyParseInt (cleanChars (s.data.filter (fun c => c ≠ ','))) with
      | some n => PyNum.int n
      | none => PyNum.int 0)
    have : cleanChars (s.data.filter (fun c => c ≠ ',')) = cleanChars s.data := by
      unfold cleanChars
      rw [List.filter_filter]
      simp
    rw [this]
  · show (match pyParseInt (cleanChars (l ++ ['원'])) with
      | some n => PyNum.int n
      | none => PyNum.int 0) = .int ((digitsToNat l : Nat) : Int)
    rw [cleanChars_digits l h, pyParseInt_digits l hne h]

/-- Witness for C2: the string "1,000원" cleans to the digits 1000, and
comma removal does not change the parse. -/
theorem C2_extract_amount_spec_witness :
    extract_amount (.str (String.mk (['1', '0', '0', '0'] ++ ['원']))) =
      .int ((digitsToNat ['1', '0', '0', '0'] : Nat) : Int) ∧
    extract_amount (.str "1,000원") =
      extract_amount (.str (String.mk ("1,000원".data.filter (fun c => c ≠ ',')))) ∧
    digitsToNat ['1', '0', '0', '0'] = 1000 :=
  ⟨C2_extract_amount_spec.2.2.2.2.2 ['1', '0', '0', '0'] (by decide) (by decide),
   C2_extract_amount_spec.2.2.2.2.1 "1,000원",
   by decide⟩

/-- filterMap with an if-guarded some is map over filter. -/
lemma filterMap_if {α β : Type} (p : α → Prop) [DecidablePred p] (f : α → β)
    (l : List α) :
    l.filterMap (fun a => if p a then some (f a) else none) =
      (l.filter (fun a => decide (p a))).map f := by
  induction l with
  | nil => rfl
  | cons a as ih =>
    by_cases ha : p a <;> simp [ha, ih]

/-- Claim C9: empty asset names or empty weights give an empty allocation
table; otherwise exactly the assets whose first-year weight exceeds 0.01
appear, in asset-name-list order, and an index beyond the end of the
first-year weight vector carries weight 0 (hence is excluded). -/
theorem C9_allocation_filter (names : List String) (fw : List ℚ)
    (rest : List (List ℚ)) :
    create_asset_allocation_table names [] = [] ∧
    create_asset_allocation_table [] (fw :: rest) = [] ∧
    (create_asset_allocation_table names (fw :: rest)).map AllocationRow.asset =
      (names.enum.filter (fun p => decide (fw.getD p.1 0 > 0.01))).map Prod.snd ∧
    (∀ i : Nat, fw.length ≤ i → fw.getD i 0 = 0) := by
  refine ⟨rfl, rfl, ?_, fun i hi => List.getD_eq_default _ _ hi⟩
  rw [create_asset_allocation_table.eq_def]
  dsimp only
  by_cases h : names = []
  · subst h
    rfl
  · rw [if_neg h,
      filterMap_if (fun p => fw.getD p.1 0 > 0.01)
        (fun p => AllocationRow.mk p.2 (fw.getD p.1 0) (classify_asset p.2)
          (estimate_return p.2)) names.enum]
    simp [List.map_map, Function.comp]

/-- Witness for C9: of two assets with first-year weights 1 and 1/200
only the first (weight above the 1% cutoff) appears, and an index past
the weight vector carries weight 0. -/
theorem C9_allocation_filter_witness :
    (create_asset_allocation_table ["KOSPI", "나스닥 100"]
        [[(1 : ℚ), 1 / 200]]).map AllocationRow.asset = ["KOSPI"] ∧
    [(1 : ℚ)].getD 7 0 = 0 := by
  constructor
  · rw [(C9_allocation_filter ["KOSPI", "나스닥 100"] [(1 : ℚ), 1 / 200] []).2.2.1]
    norm_num [List.enum, List.enumFrom, List.filter]
  · exact (C9_allocation_filter [] [(1 : ℚ)] []).2.2.2 7 (by norm_num)

/-- insertD permutes to consing. -/
lemma insertD_perm (x : String × Int) (l : List (String × Int)) :
    (insertD x l).Perm (x :: l) := by
  induction l with
  | nil => exact List.Perm.refl _
  | cons y ys ih =>
    rw [insertD]
    by_cases h : x.2 < y.2
    · rw [if_pos h]
      exact (List.Perm.cons y ih).trans (List.Perm.swap x y ys)
    · rw [if_neg h]

/-- sortD permutes its input. -/
lemma sortD_perm (l : List (String × Int)) : (sortD l).Perm l := by
  induction l with
  | nil => exact List.Perm.refl _
  | cons x xs ih =>
    rw [sortD]
    exact (insertD_perm x (sortD xs)).trans (List.Perm.cons x ih)

/-- insertD preserves descending-by-amount pairwise order. -/
lemma insertD_pairwise (x : String × Int) (l : List (String × Int))
    (h : l.Pairwise (fun a b => b.2 ≤ a.2)) :
    (insertD x l).Pairwise (fun a b => b.2 ≤ a.2) := by
  induction l with
  | nil => simp [insertD]
  | cons y ys ih =>
    rcases List.pairwise_cons.mp h with ⟨hy, hys⟩
    rw [insertD]
    by_cases hxy : x.2 < y.2
    · rw [if_pos hxy]
      refine List.pairwise_cons.mpr ⟨?_, ih hys⟩
      intro b hb
      rcases List.mem_cons.mp ((insertD_perm x ys).mem_iff.mp hb) with rfl | hbys
      · exact le_of_lt hxy
      · exact hy b hbys
    · rw [if_neg hxy]
      refine List.pairwise_cons.mpr ⟨?_, h⟩
      intro b hb
      rcases List.mem_cons.mp hb with rfl | hbys
      · exact not_lt.mp hxy
      · exact le_trans (hy b hbys) (not_lt.mp hxy)

/-- sortD sorts by descending amount. -/
lemma sortD_pairwise (l : List (String × Int)) :
    (sortD l).Pairwise (fun a b => b.2 ≤ a.2) := by
  induction l with
  | nil => simp [sortD]
  | cons x xs ih => exact insertD_pairwise x (sortD xs) ih

/-- The original list is a sublist of the insertion result. -/
lemma sublist_insertD (x : String × Int) (l : List (String × Int)) :
    List.Sublist l (insertD x l) := by
  induction l with
  | nil => simp [insertD]
  | cons y ys ih =>
    rw [insertD]
    by_cases h : x.2 < y.2
    · rw [if_pos h]
      exact List.cons_sublist_cons.mpr ih
    · rw [if_neg h]
      exact List.Sublist.cons _ (List.Sublist.refl _)

/-- insertD splits at the first element not strictly above x's amount. -/
lemma insertD_eq (x : String × Int) (l : List (String × Int)) :
    insertD x l =
      l.takeWhile (fun y => decide (x.2 < y.2)) ++
        x :: l.dropWhile (fun y => decide (x.2 < y.2)) := by
  induction l with
  | nil => rfl
  | cons y ys ih =>
    rw [insertD]
    by_cases h : x.2 < y.2
    · rw [if_pos h, List.takeWhile_cons, List.dropWhile_cons]
      simp [h, ih]
    · rw [if_neg h, List.takeWhile_cons, List.dropWhile_cons]
      simp [h]

/-- Stability of sortD: two entries in input order whose amounts are
already in descending (or equal) order keep that order in the output.
In particular equal amounts keep original insertion order. -/
lemma sortD_stable (l : List (String × Int)) (a b : String × Int)
    (hab : List.Sublist [a, b] l) (hba : b.2 ≤ a.2) :
    List.Sublist [a, b] (sortD l) := by
  induction l with
  | nil => cases hab
  | cons c cs ih =>
    cases hab with
    | cons _ h' =>
      exact (ih h').trans (sublist_insertD c (sortD cs))
    | cons₂ _ h' =>
      rw [sortD, insertD_eq]
      have hb : b ∈ sortD cs :=
        (sortD_perm cs).mem_iff.mpr (List.singleton_sublist.mp h')
      have hbd : b ∈ List.dropWhile (fun y => decide (a.2 < y.2)) (sortD cs) := by
        have hb2 : b ∈ List.takeWhile (fun y => decide (a.2 < y.2)) (sortD cs) ++
            List.dropWhile (fun y => decide (a.2 < y.2)) (sortD cs) := by
          rw [List.takeWhile_append_dropWhile]
          exact hb
        rcases List.mem_append.mp hb2 with hbt | hbd
        · have := List.mem_takeWhile_imp hbt
          simp at this
          exact absurd this (not_lt.mpr hba)
        · exact hbd
      exact (List.cons_sublist_cons.mpr (List.singleton_sublist.mpr hbd)).trans
        (List.sublist_append_right _ _)

/-- Claim C7: the expense breakdown iterates exactly the most recent three
history entries in original insertion order (a suffix of length
min(len, 3), all entries when fewer than three), and per month lists the
top 5 expense categories: a ≤ 5-element prefix of a stable descending
sort of the category mapping (so amounts descend, ties keep insertion
order, and categories beyond the top 5 are excluded), as on the spec's
tie example. -/
theorem C7_expense_breakdown_top5 (m : List (String × MonthData))
    (d : List (String × Int)) :
    recent_months m <:+ m ∧
    (recent_months m).length = min m.length 3 ∧
    expense_breakdown m =
      (recent_months m).map (fun p => (p.1, p.2.total, top5 p.2.details)) ∧
    (sortD d).Perm d ∧
    List.Sublist (top5 d) (sortD d) ∧
    (top5 d).length = min d.length 5 ∧
    (top5 d).Pairwise (fun a b => b.2 ≤ a.2) ∧
    (∀ a b : String × Int, List.Sublist [a, b] d → b.2 ≤ a.2 →
      List.Sublist [a, b] (sortD d)) ∧
    top5 [("A", 500), ("B", 900), ("C", 100), ("D", 900), ("E", 300), ("F", 50)] =
      [("B", 900), ("D", 900), ("A", 500), ("E", 300), ("C", 100)] := by
  refine ⟨?_, ?_, rfl, sortD_perm d, List.take_sublist 5 (sortD d), ?_, ?_,
    sortD_stable d, by decide⟩
  · unfold recent_months
    split_ifs with h
    · exact List.drop_suffix _ _
    · exact List.suffix_rfl
  · unfold recent_months
    split_ifs with h
    · rw [List.length_drop]
      omega
    · omega
  · rw [top5, List.length_take, (sortD_perm d).length_eq, Nat.min_comm]
  · exact List.Pairwise.sublist (List.take_sublist 5 (sortD d)) (sortD_pairwise d)

/-- Witness for C7: two equal-amount entries in input order stay in that
order in the sorted list. -/
theorem C7_expense_breakdown_top5_witness :
    List.Sublist [(("X", (9 : Int))), ("Y", 9)]
      (sortD [("X", 9), ("Q", 100), ("Y", 9)]) :=
  (C7_expense_breakdown_top5 [] [("X", 9), ("Q", 100), ("Y", 9)]).2.2.2.2.2.2.2.1
    ("X", 9) ("Y", 9) (by decide) (by decide)
